import Mathlib

/-!
Verification of `rmnd_lca/electricity.py` (the `Electricity` class), which
integrates REMIND energy-scenario projections into an ecoinvent life-cycle
inventory: it synthesizes three voltage-tier electricity market records per
scenario region, relinks electricity-consuming exchanges to them, and rescales
power-plant efficiencies and emissions.

The Python code is shallowly embedded below: dictionaries become structures,
`float` amounts become `ℚ` (exact rationals; scenario values are data, so every
floating-point identity claimed by the spec is checked exactly), fallible code
(Python exceptions such as `KeyError`, `TypeError`, `IndexError`) returns
`Except PyErr`, and external lookup tables (geomatcher, population, lower
heating values, scenario arrays) are parameters of an explicit context
structure `Ctx` mirroring the fields of the `Electricity` object.
-/

namespace RmndLca

/-- Substring test on lists of characters: `chunk` occurs starting at the head. -/
def startsL : List Char → List Char → Bool
  | [], _ => true
  | _ :: _, [] => false
  | a :: as, b :: bs => a == b && startsL as bs

/-- Substring occurrence test on lists of characters (Python `sub in s`). -/
def containsL (pat : List Char) : List Char → Bool
  | [] => startsL pat []
  | c :: rest => startsL pat (c :: rest) || containsL pat rest

/-- Python's substring containment `pat in s` for strings. -/
def strHas (s pat : String) : Bool := containsL pat.toList s.toList

/-- Python errors that the embedded code can raise. -/
inductive PyErr where
  | keyError
  | typeError
  | indexError
  deriving DecidableEq, Repr

/-- An element of a geomatcher result list: either a plain location string or a
`(kind, name)` tuple such as `('REMIND', 'EUR')`. -/
inductive GeoItem where
  | str (s : String)
  | tup (kind : String) (name : String)
  deriving DecidableEq, Repr

/-- A wurst exchange (`dict` in Python). Only the keys used by the code under
verification are kept; the biosphere-only keys `input` and `categories` are
fixed identifiers that no claim touches and are omitted. -/
structure Exch where
  uncertaintyType : Nat := 0
  locv : ℚ := 0
  amount : ℚ := 0
  typ : String := ""
  productionVolume : ℚ := 0
  product : String := ""
  name : String := ""
  unit : String := ""
  location : String := ""
  deriving DecidableEq, Repr, Inhabited

/-- A wurst dataset (`dict` in Python): one inventory record. -/
structure Rec where
  name : String := ""
  location : String := ""
  refProduct : String := ""
  unit : String := ""
  database : String := ""
  comment : String := ""
  exchanges : List Exch := []
  parameters : List (String × ℚ) := []
  deriving DecidableEq, Repr, Inhabited

/-- The result of `remind_to_ecoinvent_location`, which in Python returns a
string (`"GLO"` for `"World"`), a list of locations, or `None` (after an
uncaught `KeyError` was printed). -/
inductive PyLocs where
  | strv (s : String)
  | listv (l : List String)
  | nonev
  deriving DecidableEq, Repr

/-- State of the `Electricity` object: the mutable database plus the loaded
lookup tables and scenario arrays (`self.rmd`), all treated as opaque data.
`share t r` is `self.rmd.electricity_markets.loc[t, r, 0]`; `marketLabel` is
`self.rmd.rev_electricity_market_labels`; `powerplantMap` is
`self.powerplant_map`; `geoIntersects r` is `self.geo.intersects(('REMIND', r))`
and `geoWithin l` is `self.geo.within(l)`, with `none` modelling a `KeyError`
for an unknown key. -/
structure Ctx where
  db : List Rec := []
  population : List (String × Nat) := []
  regions : List String := []
  marketVars : List String := []
  share : String → String → ℚ := fun _ _ => 0
  marketLabel : String → String := fun t => t
  powerplantMap : String → List String := fun _ => []
  geoIntersects : String → Option (List GeoItem) := fun _ => none
  geoWithin : String → Option (List GeoItem) := fun _ => none
  emissionsMap : List (String × String) := []
  fuelsLhv : List (String × ℚ) := []
  scenario : String := ""
  year : Nat := 0

/-- `Electricity.remind_to_ecoinvent_location` (electricity.py:93-116): for
`"World"` return the string `"GLO"`; otherwise collect the non-tuple results of
`geo.intersects(('REMIND', location))`, or print and return `None` on
`KeyError`. -/
def remind_to_ecoinvent_location (ctx : Ctx) (location : String) : PyLocs :=
  if location != "World" then
    match ctx.geoIntersects location with
    | none => .nonev
    | some rs => .listv (rs.filterMap (fun r =>
        match r with
        | .str s => some s
        | .tup _ _ => none))
  else .strv "GLO"

/-- Python iteration over the value `remind_to_ecoinvent_location` returned, as
performed by `get_suppliers_of_a_region`'s caller: iterating a string yields
its characters as one-character strings, iterating `None` raises `TypeError`. -/
def iterLocs : PyLocs → Except PyErr (List String)
  | .strv s => .ok (s.toList.map (fun c => String.mk [c]))
  | .listv l => .ok l
  | .nonev => .error .typeError

/-- One pairwise exclusion rule of `ecoinvent_to_remind_location`: if both `a`
and `b` are present, remove (the first occurrence of) `a`. -/
def tieBreak1 (l : List String) (a b : String) : List String :=
  if l.contains a && l.contains b then l.erase a else l

/-- The fixed priority table of `ecoinvent_to_remind_location`
(electricity.py:144-165), applied in source order. -/
def applyTieBreaks (l : List String) : List String :=
  let l1 := tieBreak1 l "EUR" "NEU"
  let l2 := tieBreak1 l1 "EUR" "REF"
  let l3 := tieBreak1 l2 "OAS" "IND"
  let l4 := tieBreak1 l3 "OAS" "JPN"
  let l5 := tieBreak1 l4 "AFR" "SSA"
  let l6 := tieBreak1 l5 "USA" "CAZ"
  let l7 := tieBreak1 l6 "OAS" "CHA"
  let l8 := tieBreak1 l7 "AFR" "MEA"
  let l9 := tieBreak1 l8 "OAS" "MEA"
  let l10 := tieBreak1 l9 "OAS" "REF"
  tieBreak1 l10 "OAS" "EUR"

/-- `Electricity.ecoinvent_to_remind_location` (electricity.py:118-173).
Returns `.ok (some regions)` on the shortcut and normal paths, `.ok none` when
zero REMIND regions were found (the Python function prints `no loc for …` and
falls through, returning `None`), and `.error .keyError` when `geo.within`
does not know the location. -/
def ecoinvent_to_remind_location (ctx : Ctx) (location : String) :
    Except PyErr (Option (List String)) :=
  if location == "GLO" then .ok (some ["World"])
  else if location == "RoW" then .ok (some ["CAZ"])
  else if location == "IAI Area, Russia & RER w/o EU27 & EFTA" then .ok (some ["REF"])
  else
    match ctx.geoWithin location with
    | none => .error .keyError
    | some rs =>
      let remindLocation := rs.filterMap (fun r =>
        match r with
        | .str _ => none
        | .tup k n => if k == "REMIND" && n != "World" then some n else none)
      if remindLocation.length > 1 then .ok (some (applyTieBreaks remindLocation))
      else if remindLocation.length == 0 then .ok none
      else .ok (some remindLocation)

/-- `self.ecoinvent_to_remind_location(loc)[0]` as used by the Relinking
Engine: indexing `None` raises `TypeError`, indexing `[]` raises
`IndexError`. -/
def e2rHead (ctx : Ctx) (location : String) : Except PyErr String :=
  match ecoinvent_to_remind_location ctx location with
  | .error e => .error e
  | .ok none => .error .typeError
  | .ok (some []) => .error .indexError
  | .ok (some (h :: _)) => .ok h

/-- `Electricity.get_suppliers_of_a_region` (electricity.py:176-192):
`ws.get_many` with name-in-set, location-in-set and unit filters. -/
def get_suppliers_of_a_region (db : List Rec) (ecoinventRegions : List String)
    (ecoinventTechnologies : List String) : List Rec :=
  db.filter (fun r =>
    ecoinventTechnologies.contains r.name &&
    ecoinventRegions.contains r.location &&
    r.unit == "kilowatt hour")

/-- Population lookup `self.population.get(loc, 0)` as a rational. -/
def popOf (population : List (String × Nat)) (location : String) : ℚ :=
  match population.find? (fun kv => kv.1 == location) with
  | some kv => (kv.2 : ℚ)
  | none => 0

/-- `Electricity.get_pop_weighted_share` (electricity.py:207-226): population
of the supplier's location divided by the loop-accumulated total population of
all suppliers' locations. -/
def get_pop_weighted_share (population : List (String × Nat)) (supplier : Rec)
    (suppliers : List Rec) : ℚ :=
  let locPopulation := popOf population supplier.location
  let locsPopulation := suppliers.foldl (fun acc s => acc + popOf population s.location) 0
  locPopulation / locsPopulation

/-- The three-step supplier fallback cascade, written identically at
electricity.py:324-335 (low voltage) and electricity.py:553-564 (high
voltage): home locations, then `['RER']`, then `['RoW']`. -/
def supplierCascade (db : List Rec) (ecoinventRegions : List String)
    (ecoinventTechnologies : List String) : List Rec :=
  let suppliers := get_suppliers_of_a_region db ecoinventRegions ecoinventTechnologies
  let suppliers2 :=
    if suppliers.length == 0 then
      get_suppliers_of_a_region db ["RER"] ecoinventTechnologies
    else suppliers
  if suppliers2.length == 0 then
    get_suppliers_of_a_region db ["RoW"] ecoinventTechnologies
  else suppliers2

/-- The database tag copied onto new datasets: `self.db[1]['database']`. -/
def dbTag (ctx : Ctx) : String :=
  match ctx.db[1]? with
  | some r => r.database
  | none => ""

/-- The name given to a synthesized tier market group:
`'market group for electricity, ' + tier + ', ' + scenario + ', ' + str(year)`. -/
def marketName (ctx : Ctx) (tier : String) : String :=
  "market group for electricity, " ++ tier ++ " voltage, " ++ ctx.scenario ++ ", " ++
    toString ctx.year

/-- The supplier-contribution exchanges appended for one technology
(electricity.py:337-351 and 566-580): one technosphere exchange per supplier
with amount `share × pop_weighted_share`. -/
def technologyExchanges (population : List (String × Nat)) (amount : ℚ)
    (suppliers : List Rec) : List Exch :=
  suppliers.map (fun supplier =>
    let sh := get_pop_weighted_share population supplier suppliers
    { uncertaintyType := 0
      locv := amount * sh
      amount := amount * sh
      typ := "technosphere"
      productionVolume := 0
      product := supplier.refProduct
      name := supplier.name
      unit := supplier.unit
      location := supplier.location })

/-- The technology loop of `create_new_markets_high_voltage`
(electricity.py:541-580): for each non-solar technology with non-zero scenario
share, resolve suppliers through the cascade and append their allocated
contributions. Iterating the resolved locations raises when
`remind_to_ecoinvent_location` returned `None`. -/
def marketTechExchanges (ctx : Ctx) (region : String) (ecoRegs : PyLocs) :
    List String → Except PyErr (List Exch)
  | [] => .ok []
  | t :: ts =>
    if ctx.share t region != 0 then
      match iterLocs ecoRegs with
      | .error e => .error e
      | .ok locs =>
        let names := ctx.powerplantMap (ctx.marketLabel t)
        let suppliers := supplierCascade ctx.db locs names
        match marketTechExchanges ctx region ecoRegs ts with
        | .error e => .error e
        | .ok rest => .ok (technologyExchanges ctx.population (ctx.share t region) suppliers ++ rest)
    else marketTechExchanges ctx region ecoRegs ts

/-- The production exchange of a tier market (amount 1). -/
def productionExch (ctx : Ctx) (region tier : String) : Exch :=
  { uncertaintyType := 0
    locv := 1
    amount := 1
    typ := "production"
    productionVolume := 0
    product := "electricity, " ++ tier ++ " voltage"
    name := marketName ctx tier
    unit := "kilowatt hour"
    location := region }

/-- The non-solar technologies iterated by the high-voltage builder
(electricity.py:508). -/
def hvTechs (ctx : Ctx) : List String :=
  ctx.marketVars.filter (fun t => !(strHas t "Solar"))

/-- The solar technologies iterated by the low-voltage builder
(electricity.py:310). -/
def solarTechs (ctx : Ctx) : List String :=
  ctx.marketVars.filter (fun t => strHas t "Solar")

/-- One region's dataset of `create_new_markets_high_voltage`
(electricity.py:500-582). The generated uuid `code` field is omitted. -/
def createHVRecord (ctx : Ctx) (region : String) : Except PyErr Rec :=
  match marketTechExchanges ctx region (remind_to_ecoinvent_location ctx region) (hvTechs ctx) with
  | .error e => .error e
  | .ok techExchs =>
    .ok { name := marketName ctx "high"
          location := region
          refProduct := "electricity, high voltage"
          unit := "kilowatt hour"
          database := dbTag ctx
          comment := "Dataset produced from REMIND scenario output results"
          exchanges := productionExch ctx region "high" :: techExchs }

/-- One region's dataset of `create_new_markets_medium_voltage`
(electricity.py:386-498): production exchange, high-voltage input with
transformation loss 1.0062, self-loop 0.0041, the sulfur-hexafluoride leakage
pair at 5.4e-8, and the transmission network input 1.8628e-8. -/
def createMVRecord (ctx : Ctx) (region : String) : Rec :=
  { name := marketName ctx "medium"
    location := region
    refProduct := "electricity, medium voltage"
    unit := "kilowatt hour"
    database := dbTag ctx
    comment := "Dataset produced from REMIND scenario output results"
    exchanges :=
      [ productionExch ctx region "medium",
        { uncertaintyType := 0, locv := 10062/10000, amount := 10062/10000,
          typ := "technosphere", productionVolume := 0,
          product := "electricity, high voltage",
          name := marketName ctx "high", unit := "kilowatt hour", location := region },
        { uncertaintyType := 0, locv := 41/10000, amount := 41/10000,
          typ := "technosphere", productionVolume := 0,
          product := "electricity, medium voltage",
          name := marketName ctx "medium", unit := "kilowatt hour", location := region },
        { uncertaintyType := 0, locv := 54/(10^9 : ℚ), amount := 54/(10^9 : ℚ),
          typ := "technosphere", productionVolume := 0,
          product := "sulfur hexafluoride, liquid",
          name := "market for sulfur hexafluoride, liquid", unit := "kilogram",
          location := "RoW" },
        { uncertaintyType := 0, locv := 54/(10^9 : ℚ), amount := 54/(10^9 : ℚ),
          typ := "biosphere", productionVolume := 0, product := "",
          name := "Sulfur hexafluoride", unit := "kilogram", location := "" },
        { uncertaintyType := 0, locv := 18628/(10^12 : ℚ), amount := 18628/(10^12 : ℚ),
          typ := "technosphere", productionVolume := 0,
          product := "transmission network, electricity, medium voltage",
          name := "transmission network construction, electricity, medium voltage",
          unit := "kilometer", location := "RoW" } ] }

/-- The solar-technology loop of `create_new_markets_low_voltage`
(electricity.py:308-351): accumulates the total solar share and the allocated
supplier exchanges. `remind_to_ecoinvent_location` is called inside the loop
(electricity.py:315), only for technologies with non-zero share. -/
def lvSolarLoop (ctx : Ctx) (region : String) :
    List String → Except PyErr (ℚ × List Exch)
  | [] => .ok (0, [])
  | t :: ts =>
    if ctx.share t region != 0 then
      match iterLocs (remind_to_ecoinvent_location ctx region) with
      | .error e => .error e
      | .ok locs =>
        let amount := ctx.share t region
        let names := ctx.powerplantMap (ctx.marketLabel t)
        let suppliers := supplierCascade ctx.db locs names
        match lvSolarLoop ctx region ts with
        | .error e => .error e
        | .ok rest =>
          .ok (amount + rest.1, technologyExchanges ctx.population amount suppliers ++ rest.2)
    else lvSolarLoop ctx region ts

/-- The fixed opening exchanges of a low-voltage market record
(electricity.py:249-306): production exchange, the sulfur-hexafluoride leakage
pair at 2.99e-9, and the distribution network input 8.74e-8. -/
def lvFixedHead (ctx : Ctx) (region : String) : List Exch :=
  [ productionExch ctx region "low",
    { uncertaintyType := 0, locv := 299/(10^11 : ℚ), amount := 299/(10^11 : ℚ),
      typ := "technosphere", productionVolume := 0,
      product := "sulfur hexafluoride, liquid",
      name := "market for sulfur hexafluoride, liquid", unit := "kilogram",
      location := "RoW" },
    { uncertaintyType := 0, locv := 299/(10^11 : ℚ), amount := 299/(10^11 : ℚ),
      typ := "biosphere", productionVolume := 0, product := "",
      name := "Sulfur hexafluoride", unit := "kilogram", location := "" },
    { uncertaintyType := 0, locv := 874/(10^10 : ℚ), amount := 874/(10^10 : ℚ),
      typ := "technosphere", productionVolume := 0,
      product := "distribution network, electricity, low voltage",
      name := "distribution network construction, electricity, low voltage",
      unit := "kilometer", location := "RoW" } ]

/-- The fixed closing exchanges of a low-voltage market record
(electricity.py:352-381): the medium-voltage input
`(1 - solar_amount) * 1.0276` and the self-loop 0.0298. -/
def lvFixedTail (ctx : Ctx) (region : String) (solarAmount : ℚ) : List Exch :=
  [ { uncertaintyType := 0, locv := (1 - solarAmount) * (10276/10000),
      amount := (1 - solarAmount) * (10276/10000),
      typ := "technosphere", productionVolume := 0,
      product := "electricity, medium voltage",
      name := marketName ctx "medium", unit := "kilowatt hour",
      location := region },
    { uncertaintyType := 0, locv := 298/10000, amount := 298/10000,
      typ := "technosphere", productionVolume := 0,
      product := "electricity, low voltage",
      name := marketName ctx "low", unit := "kilowatt hour",
      location := region } ]

/-- One region's dataset of `create_new_markets_low_voltage`
(electricity.py:228-384): the fixed opening exchanges, the solar
contributions, and the fixed closing exchanges. -/
def createLVRecord (ctx : Ctx) (region : String) : Except PyErr Rec :=
  match lvSolarLoop ctx region (solarTechs ctx) with
  | .error e => .error e
  | .ok res =>
    .ok { name := marketName ctx "low"
          location := region
          refProduct := "electricity, low voltage"
          unit := "kilowatt hour"
          database := dbTag ctx
          comment := "Dataset produced from REMIND scenario output results"
          exchanges := lvFixedHead ctx region ++ res.2 ++ lvFixedTail ctx region res.1 }

/-- `create_new_markets_high_voltage`'s region loop: each new dataset is
appended to `self.db` before the next region is processed. -/
def createHVAll (ctx : Ctx) : List String → Except PyErr Ctx
  | [] => .ok ctx
  | r :: rs =>
    match createHVRecord ctx r with
    | .error e => .error e
    | .ok d => createHVAll { ctx with db := ctx.db ++ [d] } rs

/-- `Electricity.create_new_markets_high_voltage` over all scenario regions. -/
def create_new_markets_high_voltage (ctx : Ctx) : Except PyErr Ctx :=
  createHVAll ctx ctx.regions

/-- `create_new_markets_medium_voltage`'s region loop. -/
def createMVAll (ctx : Ctx) : List String → Ctx
  | [] => ctx
  | r :: rs => createMVAll { ctx with db := ctx.db ++ [createMVRecord ctx r] } rs

/-- `Electricity.create_new_markets_medium_voltage` over all scenario regions. -/
def create_new_markets_medium_voltage (ctx : Ctx) : Ctx :=
  createMVAll ctx ctx.regions

/-- `create_new_markets_low_voltage`'s region loop. -/
def createLVAll (ctx : Ctx) : List String → Except PyErr Ctx
  | [] => .ok ctx
  | r :: rs =>
    match createLVRecord ctx r with
    | .error e => .error e
    | .ok d => createLVAll { ctx with db := ctx.db ++ [d] } rs

/-- `Electricity.create_new_markets_low_voltage` over all scenario regions. -/
def create_new_markets_low_voltage (ctx : Ctx) : Except PyErr Ctx :=
  createLVAll ctx ctx.regions

/-- The inner exchange filter of `relink_activities_to_new_markets`
(electricity.py:598-602): unit contains the energy unit or the name matches
one of the market / voltage-transformation patterns. -/
def relinkMatches (exc : Exch) : Bool :=
  strHas exc.unit "kilowatt hour" ||
  strHas exc.name "market for electricity" ||
  strHas exc.name "electricity voltage transformation" ||
  strHas exc.name "market group for electricity"

/-- One of the three voltage rewrite blocks of
`relink_activities_to_new_markets` (electricity.py:604-615): if the (current)
product mentions the key, point the exchange at the tier market group and
translate its location with `ecoinvent_to_remind_location(...)[0]`. -/
def relinkStep (ctx : Ctx) (key tier : String) (exc : Exch) : Except PyErr Exch :=
  if strHas exc.product key then
    match e2rHead ctx exc.location with
    | .error e => .error e
    | .ok loc =>
      .ok { exc with name := marketName ctx tier,
                     product := "electricity, " ++ tier ++ " voltage",
                     location := loc }
  else .ok exc

/-- Processing of a single exchange by the Relinking Engine
(electricity.py:598-615): run the three sequential voltage rewrites when the
exchange matches the filter, is not a production exchange and is measured in
kilowatt hours; otherwise leave it unchanged. -/
def relinkExchange (ctx : Ctx) (exc : Exch) : Except PyErr Exch :=
  if relinkMatches exc && (exc.typ != "production" && exc.unit == "kilowatt hour") then
    match relinkStep ctx "high" "high" exc with
    | .error e => .error e
    | .ok exc1 =>
      match relinkStep ctx "medium" "medium" exc1 with
      | .error e => .error e
      | .ok exc2 => relinkStep ctx "low" "low" exc2
  else .ok exc

/-- The Relinking Engine applied to one record's exchange list. -/
def relinkExchanges (ctx : Ctx) : List Exch → Except PyErr (List Exch)
  | [] => .ok []
  | e :: es =>
    match relinkExchange ctx e with
    | .error err => .error err
    | .ok e1 =>
      match relinkExchanges ctx es with
      | .error err => .error err
      | .ok es1 => .ok (e1 :: es1)

/-- The Relinking Engine applied to one record: records whose name contains
`market group for electricity` are excluded by the outer `ws.get_many` filter
(electricity.py:596) and stay untouched. -/
def relinkRecord (ctx : Ctx) (r : Rec) : Except PyErr Rec :=
  if strHas r.name "market group for electricity" then .ok r
  else
    match relinkExchanges ctx r.exchanges with
    | .error e => .error e
    | .ok es => .ok { r with exchanges := es }

/-- The Relinking Engine applied to a database (list of records). -/
def relinkDb (ctx : Ctx) : List Rec → Except PyErr (List Rec)
  | [] => .ok []
  | r :: rs =>
    match relinkRecord ctx r with
    | .error e => .error e
    | .ok r1 =>
      match relinkDb ctx rs with
      | .error e => .error e
      | .ok rs1 => .ok (r1 :: rs1)

/-- `Electricity.relink_activities_to_new_markets` (electricity.py:584-615). -/
def relink_activities_to_new_markets (ctx : Ctx) : Except PyErr (List Rec) :=
  relinkDb ctx ctx.db

/-- The eight electricity-market name patterns removed by
`update_electricity_markets` (electricity.py:922-929). -/
def marketStopList : List String :=
  [ "market group for electricity, high voltage",
    "market group for electricity, medium voltage",
    "market group for electricity, low voltage",
    "market for electricity, high voltage",
    "market for electricity, medium voltage",
    "market for electricity, low voltage",
    "electricity, high voltage, import",
    "electricity, high voltage, production mix" ]

/-- The deletion pass of `update_electricity_markets` (electricity.py:930):
keep a record unless its name contains any of the stop patterns. -/
def removeOldMarkets (db : List Rec) : List Rec :=
  db.filter (fun r => !(marketStopList.any (fun stop => strHas r.name stop)))

/-- `Electricity.update_electricity_markets` (electricity.py:911-945): delete
the old markets, build the high, medium and low voltage market groups in that
order, then relink the consuming activities, returning the final database. -/
def update_electricity_markets (ctx : Ctx) : Except PyErr (List Rec) :=
  match create_new_markets_high_voltage { ctx with db := removeOldMarkets ctx.db } with
  | .error e => .error e
  | .ok ctx1 =>
    let ctx2 := create_new_markets_medium_voltage ctx1
    match create_new_markets_low_voltage ctx2 with
    | .error e => .error e
    | .ok ctx3 => relink_activities_to_new_markets ctx3

/-- The fuel exchanges of a dataset, `ws.technosphere(ds, *fuel_filters)`:
technosphere exchanges satisfying the supplied filter. -/
def technosphereExchs (ds : Rec) (fuelFilter : Exch → Bool) : List Exch :=
  ds.exchanges.filter (fun e => e.typ == "technosphere" && fuelFilter e)

/-- Modelled from the spec: `wurst.searching.reference_product` — an external
collaborator not part of this repository — returns the record's
reference-product output exchange, its production exchange with a non-zero
amount (§4.6 "reference-product output amount"). -/
def referenceProduct (ds : Rec) : Option Exch :=
  ds.exchanges.find? (fun e => e.typ == "production" && e.amount != 0)

/-- Parameter update `ds['parameters'][key] = v`: replace the first binding of
`key`, appending a fresh one when no binding exists. -/
def setParam (params : List (String × ℚ)) (key : String) (v : ℚ) : List (String × ℚ) :=
  match params with
  | [] => [(key, v)]
  | kv :: rest =>
    if kv.1 == key then (key, v) :: rest else kv :: setParam rest key v

/-- `ds['parameters'][k]` lookup (defaulting to 0, unreachable in the embedded
call sites). -/
def paramLookup (params : List (String × ℚ)) (key : String) : ℚ :=
  match params.find? (fun kv => kv.1 == key) with
  | some kv => kv.2
  | none => 0

/-- The explicit-efficiency parameter keys of a dataset
(electricity.py:628-629): names containing `efficiency` but not `thermal`. -/
def efficiencyKeys (ds : Rec) : List String :=
  (ds.parameters.map (fun kv => kv.1)).filter
    (fun k => strHas k "efficiency" && !(strHas k "thermal"))

/-- The nested energy-input sum of the ecoinvent derivation branch
(electricity.py:634-636): over every fuel `k` of the lower-heating-value
table, over every matching fuel exchange whose name contains `k`, add
`lhv(k) / 3.6 × amount`. -/
def lhvEnergyInput (fuelsLhv : List (String × ℚ)) (fuelExchs : List Exch) : ℚ :=
  (fuelsLhv.map (fun kv =>
    ((fuelExchs.filter (fun e => strHas e.name kv.1)).map
      (fun e => kv.2 / (36/10) * e.amount)).sum)).sum

/-- `Electricity.find_ecoinvent_fuel_efficiency` (electricity.py:617-648).
Returns the efficiency together with the mutated dataset (the Python code
writes the derived value back into `ds['parameters']`). An absent reference
product raises in wurst; it is surfaced here as an error. -/
def find_ecoinvent_fuel_efficiency (ctx : Ctx) (ds : Rec) (fuelFilter : Exch → Bool) :
    Except PyErr (ℚ × Rec) :=
  if strHas ds.database "ecoinvent" then
    match efficiencyKeys ds with
    | k :: _ => .ok (paramLookup ds.parameters k, ds)
    | [] =>
      match referenceProduct ds with
      | none => .error .keyError
      | some refExch =>
        let energyInput := lhvEnergyInput ctx.fuelsLhv (technosphereExchs ds fuelFilter)
        let eff := refExch.amount / energyInput
        .ok (eff, { ds with parameters := setParam ds.parameters "efficiency" eff })
  else
    match referenceProduct ds with
    | none => .error .keyError
    | some refExch =>
      let energyInput := ((technosphereExchs ds fuelFilter).map
        (fun e => e.amount / (36/10))).sum
      let eff := refExch.amount / energyInput
      .ok (eff, { ds with parameters := [("efficiency", eff)] })

/-- A scenario emission value: a rational or the IEEE `NaN` that
`np.isnan` tests for at electricity.py:900. Arithmetic on `NaN` is absorbing,
as for IEEE floats. -/
inductive EVal where
  | nan
  | val (x : ℚ)
  deriving DecidableEq, Repr

/-- Division on scenario emission values: `NaN` is absorbing; the embedded
call sites never divide by zero (the zero branch divides by 1 and the other
branch divides by the amount it just tested to be non-zero). -/
def EVal.div : EVal → EVal → EVal
  | .nan, _ => .nan
  | _, .nan => .nan
  | .val a, .val b => if b == 0 then .nan else .val (a / b)

/-- Multiplication on scenario emission values, `NaN` absorbing. -/
def EVal.mul : EVal → EVal → EVal
  | .nan, _ => .nan
  | _, .nan => .nan
  | .val a, .val b => .val (a * b)

/-- A biosphere exchange as seen by the emission rescaler: its amount may
become `NaN` after rescaling, and its uncertainty metadata is kept as an
opaque optional blob that stripping sets to `none`. -/
structure BExch where
  name : String := ""
  amount : EVal := .val 0
  uncertainty : Option (List (String × ℚ)) := none
  deriving DecidableEq, Repr

/-- Modelled from the spec: `wurst.rescale_exchange` — an external collaborator
not part of this repository — multiplies the exchange amount by the constant
factor (§4.6: the update is "expressed as a multiplicative rescale of amount by
(target ÷ current)") and, when `removeUncertainty` is set, strips the
uncertainty metadata. -/
def rescale_exchange (exc : BExch) (factor : EVal) (removeUncertainty : Bool) : BExch :=
  { exc with amount := exc.amount.mul factor,
             uncertainty := if removeUncertainty then none else exc.uncertainty }

/-- The per-exchange biosphere update of `update_electricity_efficiency`
(electricity.py:900-907), given the already-fetched scenario target
`remind_emission[0]`: a `NaN` target is printed (a no-op here) and execution
continues; a zero-amount exchange is rescaled by `target / 1` with uncertainty
removed; otherwise the exchange is rescaled by `target / amount`. -/
def updateBioExchange (remindEmission : EVal) (exc : BExch) : BExch :=
  if exc.amount == .val 0 then
    rescale_exchange exc (remindEmission.div (.val 1)) true
  else
    rescale_exchange exc (remindEmission.div exc.amount) false

/-! ## Helper definitions and lemmas for the proofs -/

/-- The summed population of all suppliers' locations. -/
def totalPop (population : List (String × Nat)) (suppliers : List Rec) : ℚ :=
  (suppliers.map (fun s => popOf population s.location)).sum

theorem foldl_add_eq_sum (f : Rec → ℚ) (l : List Rec) :
    ∀ a : ℚ, l.foldl (fun acc s => acc + f s) a = a + (l.map f).sum := by
  induction l with
  | nil => intro a; simp
  | cons x xs ih => intro a; simp only [List.foldl_cons, List.map_cons, List.sum_cons, ih]; ring

theorem get_pop_weighted_share_div (population : List (String × Nat)) (supplier : Rec)
    (suppliers : List Rec) :
    get_pop_weighted_share population supplier suppliers
      = popOf population supplier.location / totalPop population suppliers := by
  unfold get_pop_weighted_share totalPop
  rw [foldl_add_eq_sum]
  simp

/-! ## C7: population-weighted allocation -/

/-- C7: for a supplier in a non-empty candidate set with positive total
population, `get_pop_weighted_share` is the population of the supplier's
location divided by the summed populations of all suppliers' locations,
absent population entries counting as 0 (`popOf` returns 0 for them). The
7,000,000 / 3,000,000 ↦ 0.7 / 0.3 instance is checked in the witness. -/
theorem c7_pop_weighted_share (population : List (String × Nat)) (supplier : Rec)
    (suppliers : List Rec) (_hne : suppliers ≠ []) (_hpos : 0 < totalPop population suppliers) :
    get_pop_weighted_share population supplier suppliers
      = popOf population supplier.location / totalPop population suppliers :=
  get_pop_weighted_share_div population supplier suppliers

/-- Two-supplier example world of the spec: populations 7,000,000 and
3,000,000. -/
def popTable7 : List (String × Nat) := [("AA", 7000000), ("BB", 3000000)]

/-- Supplier located in the 7,000,000-population region. -/
def supplierA7 : Rec := { name := "plant A", location := "AA" }

/-- Supplier located in the 3,000,000-population region. -/
def supplierB7 : Rec := { name := "plant B", location := "BB" }

theorem totalPop7_eval : totalPop popTable7 [supplierA7, supplierB7] = 10000000 := by
  rw [show totalPop popTable7 [supplierA7, supplierB7]
      = popOf popTable7 "AA" + (popOf popTable7 "BB" + 0) from rfl]
  rw [show popOf popTable7 "AA" = 7000000 from rfl]
  rw [show popOf popTable7 "BB" = 3000000 from rfl]
  norm_num

theorem c7_pop_weighted_share_witness :
    get_pop_weighted_share popTable7 supplierA7 [supplierA7, supplierB7] = 7/10 ∧
    get_pop_weighted_share popTable7 supplierB7 [supplierA7, supplierB7] = 3/10 := by
  have hpos : 0 < totalPop popTable7 [supplierA7, supplierB7] := by
    rw [totalPop7_eval]; norm_num
  have hA := c7_pop_weighted_share popTable7 supplierA7 [supplierA7, supplierB7]
    (by simp) hpos
  have hB := c7_pop_weighted_share popTable7 supplierB7 [supplierA7, supplierB7]
    (by simp) hpos
  rw [hA, hB, totalPop7_eval]
  rw [show popOf popTable7 supplierA7.location = 7000000 from rfl]
  rw [show popOf popTable7 supplierB7.location = 3000000 from rfl]
  norm_num

/-! ## C3: zero-region reverse mapping -/

/-- Geo world for the C3 counterexample: `geo.within('CC')` is defined but
contains no REMIND region (the region-mapping file excludes `CC`). -/
def ctxC3 : Ctx :=
  { geoWithin := fun l => if l == "CC" then some [GeoItem.str "CC"] else none }

/-- C3 counterexample: for the inventory location `CC` — not one of the three
literal shortcuts — geo-containment yields zero scenario regions, and
`ecoinvent_to_remind_location` returns `None` (modelled `.ok none`, the
printed-diagnostic fall-through path), not an empty list as the claim
states. -/
theorem c3_counterexample :
    ecoinvent_to_remind_location ctxC3 "CC" = .ok none ∧
    ecoinvent_to_remind_location ctxC3 "CC" ≠ .ok (some []) := by
  refine ⟨rfl, ?_⟩
  rw [show ecoinvent_to_remind_location ctxC3 "CC" = .ok none from rfl]
  simp

/-- C3 (amended): for every inventory location that is not one of the three
literal shortcuts and for which geo-containment yields zero scenario regions,
`ecoinvent_to_remind_location` prints a diagnostic and falls through,
returning `None` (modelled `.ok none`) — not an empty list. -/
theorem c3_zero_regions_returns_none (ctx : Ctx) (location : String) (rs : List GeoItem)
    (h1 : location ≠ "GLO") (h2 : location ≠ "RoW")
    (h3 : location ≠ "IAI Area, Russia & RER w/o EU27 & EFTA")
    (hw : ctx.geoWithin location = some rs)
    (hz : rs.filterMap (fun r =>
        match r with
        | .str _ => none
        | .tup k n => if k == "REMIND" && n != "World" then some n else none) = []) :
    ecoinvent_to_remind_location ctx location = .ok none := by
  have b1 : (location == "GLO") = false := beq_eq_false_iff_ne.mpr h1
  have b2 : (location == "RoW") = false := beq_eq_false_iff_ne.mpr h2
  have b3 : (location == "IAI Area, Russia & RER w/o EU27 & EFTA") = false :=
    beq_eq_false_iff_ne.mpr h3
  unfold ecoinvent_to_remind_location
  rw [b1, b2, b3, hw]
  simp only [Bool.false_eq_true, if_false]
  rw [hz]
  simp

theorem c3_zero_regions_returns_none_witness :
    ecoinvent_to_remind_location ctxC3 "CC" = .ok none :=
  c3_zero_regions_returns_none ctxC3 "CC" [GeoItem.str "CC"]
    (by simp) (by simp) (by simp) rfl rfl

/-! ## C2 and C4: the biosphere emission rescaler -/

/-- C2: evaluation of the rescaler's two branches (electricity.py:903-907) on
the spec's own examples. In the non-zero branch the final amount equals the
target (2.0 rescaled by 1.0/2.0 gives 1.0); but in the zero branch the
exchange amount stays 0 instead of becoming the target 0.042: rescaling a zero
amount by `target / 1` multiplies 0 by the factor. The uncertainty metadata is
stripped in the zero branch, as claimed. -/
theorem c2_zero_branch_keeps_zero :
    updateBioExchange (.val (42/1000))
        { name := "Sulfur dioxide", amount := .val 0, uncertainty := some [("loc", 2)] }
      = { name := "Sulfur dioxide", amount := .val 0, uncertainty := none } ∧
    updateBioExchange (.val 1)
        { name := "Sulfur dioxide", amount := .val 2, uncertainty := some [("loc", 2)] }
      = { name := "Sulfur dioxide", amount := .val 1, uncertainty := some [("loc", 2)] } := by
  constructor <;> simp [updateBioExchange, rescale_exchange, EVal.mul, EVal.div]

/-- C4: a `NaN` scenario emission intensity does not raise: `updateBioExchange`
is a total function (the `np.isnan` test at electricity.py:900-901 only prints)
and the `NaN` propagates into the exchange amount through the multiplicative
rescale. -/
theorem c4_nan_propagates :
    updateBioExchange .nan
        { name := "Sulfur dioxide", amount := .val 2, uncertainty := some [("loc", 2)] }
      = { name := "Sulfur dioxide", amount := .nan, uncertainty := some [("loc", 2)] } := by
  simp [updateBioExchange, rescale_exchange, EVal.mul, EVal.div]

/-! ## C6: the supplier-resolution cascade -/

/-- The candidate location set the claim describes: the first of the three
location sets tried in order whose supplier filter is non-empty (defaulting to
the last, `['RoW']`, with no further fallback). -/
def cascadeLocs (db : List Rec) (ecoinventRegions : List String)
    (ecoinventTechnologies : List String) : List String :=
  if get_suppliers_of_a_region db ecoinventRegions ecoinventTechnologies ≠ [] then
    ecoinventRegions
  else if get_suppliers_of_a_region db ["RER"] ecoinventTechnologies ≠ [] then ["RER"]
  else ["RoW"]

theorem mem_get_suppliers (db : List Rec) (locs techs : List String) (r : Rec) :
    r ∈ get_suppliers_of_a_region db locs techs ↔
      (r ∈ db ∧ r.name ∈ techs ∧ r.location ∈ locs ∧ r.unit = "kilowatt hour") := by
  simp [get_suppliers_of_a_region, List.mem_filter, and_assoc]

/-- C6: the supplier cascade returns exactly the records whose name is in the
technology-synonym set, whose location is in the candidate location set —
the first of home locations, `['RER']`, `['RoW']` whose filter result is
non-empty — and whose unit is `kilowatt hour`. -/
theorem c6_supplier_cascade (db : List Rec) (ecoinventRegions : List String)
    (ecoinventTechnologies : List String) :
    supplierCascade db ecoinventRegions ecoinventTechnologies
      = get_suppliers_of_a_region db (cascadeLocs db ecoinventRegions ecoinventTechnologies)
          ecoinventTechnologies ∧
    ∀ r, r ∈ supplierCascade db ecoinventRegions ecoinventTechnologies ↔
      (r ∈ db ∧ r.name ∈ ecoinventTechnologies ∧
        r.location ∈ cascadeLocs db ecoinventRegions ecoinventTechnologies ∧
        r.unit = "kilowatt hour") := by
  have key : supplierCascade db ecoinventRegions ecoinventTechnologies
      = get_suppliers_of_a_region db (cascadeLocs db ecoinventRegions ecoinventTechnologies)
          ecoinventTechnologies := by
    unfold supplierCascade cascadeLocs
    by_cases h1 : get_suppliers_of_a_region db ecoinventRegions ecoinventTechnologies = []
    · by_cases h2 : get_suppliers_of_a_region db ["RER"] ecoinventTechnologies = []
      · simp [h1, h2]
      · simp [h1, h2, List.length_eq_zero]
    · simp [h1, List.length_eq_zero]
  exact ⟨key, fun r => by rw [key]; exact mem_get_suppliers db _ ecoinventTechnologies r⟩

/-! ## C10: deletion of the pre-existing electricity markets -/

theorem removeOldMarkets_idem (db : List Rec) :
    removeOldMarkets (removeOldMarkets db) = removeOldMarkets db := by
  unfold removeOldMarkets
  rw [List.filter_filter]
  congr 1
  funext r
  rw [Bool.and_self]

/-- C10: `update_electricity_markets` first removes every record whose name
contains any of the eight electricity-market substrings, and market
composition begins on that filtered database: running the pipeline on a
database already so filtered gives the same result. -/
theorem c10_markets_removed_before_composing (ctx : Ctx) :
    (∀ r, r ∈ removeOldMarkets ctx.db ↔
      (r ∈ ctx.db ∧ ∀ stop ∈ marketStopList, strHas r.name stop = false)) ∧
    update_electricity_markets ctx
      = update_electricity_markets { ctx with db := removeOldMarkets ctx.db } := by
  constructor
  · intro r
    simp only [removeOldMarkets, List.mem_filter, Bool.not_eq_true', List.any_eq_false,
      Bool.not_eq_true]
  · unfold update_electricity_markets
    rw [show ({ ctx with db := removeOldMarkets ctx.db } : Ctx).db = removeOldMarkets ctx.db
        from rfl]
    rw [removeOldMarkets_idem]

/-! ## C8: exactly one production exchange per market record -/

theorem technologyExchanges_typ (population : List (String × Nat)) (amount : ℚ)
    (suppliers : List Rec) : ∀ e ∈ technologyExchanges population amount suppliers,
    e.typ = "technosphere" := by
  intro e he
  simp only [technologyExchanges, List.mem_map] at he
  obtain ⟨s, _, rfl⟩ := he
  rfl

theorem marketTechExchanges_typ (ctx : Ctx) (region : String) (ecoRegs : PyLocs) :
    ∀ (ts : List String) (l : List Exch), marketTechExchanges ctx region ecoRegs ts = .ok l →
    ∀ e ∈ l, e.typ = "technosphere" := by
  intro ts
  induction ts with
  | nil =>
    intro l h e he
    simp only [marketTechExchanges] at h
    cases h
    cases he
  | cons t ts ih =>
    intro l h e he
    unfold marketTechExchanges at h
    by_cases hs : (ctx.share t region != 0) = true
    · rw [if_pos hs] at h
      cases hi : iterLocs ecoRegs with
      | error err => rw [hi] at h; cases h
      | ok locs =>
        rw [hi] at h
        cases hm : marketTechExchanges ctx region ecoRegs ts with
        | error err => rw [hm] at h; cases h
        | ok rest =>
          rw [hm] at h
          cases h
          rcases List.mem_append.mp he with hl | hr
          · exact technologyExchanges_typ _ _ _ e hl
          · exact ih rest hm e hr
    · rw [if_neg hs] at h
      exact ih l h e he

theorem lvSolarLoop_typ (ctx : Ctx) (region : String) :
    ∀ (ts : List String) (res : ℚ × List Exch), lvSolarLoop ctx region ts = .ok res →
    ∀ e ∈ res.2, e.typ = "technosphere" := by
  intro ts
  induction ts with
  | nil =>
    intro res h e he
    simp only [lvSolarLoop] at h
    cases h
    cases he
  | cons t ts ih =>
    intro res h e he
    unfold lvSolarLoop at h
    by_cases hs : (ctx.share t region != 0) = true
    · rw [if_pos hs] at h
      cases hi : iterLocs (remind_to_ecoinvent_location ctx region) with
      | error err => rw [hi] at h; cases h
      | ok locs =>
        rw [hi] at h
        cases hm : lvSolarLoop ctx region ts with
        | error err => rw [hm] at h; cases h
        | ok rest =>
          rw [hm] at h
          cases h
          rcases List.mem_append.mp he with hl | hr
          · exact technologyExchanges_typ _ _ _ e hl
          · exact ih rest hm e hr
    · rw [if_neg hs] at h
      exact ih res h e he

/-- C8: every market record synthesized by the Market Composer — each voltage
tier, for every scenario region — contains exactly one exchange of type
`production`, and its amount is 1. -/
theorem c8_one_production_exchange (ctx : Ctx) (region : String) :
    (∀ r, createHVRecord ctx region = .ok r →
      r.exchanges.filter (fun e => e.typ == "production")
        = [productionExch ctx region "high"] ∧
      (productionExch ctx region "high").amount = 1) ∧
    ((createMVRecord ctx region).exchanges.filter (fun e => e.typ == "production")
        = [productionExch ctx region "medium"] ∧
      (productionExch ctx region "medium").amount = 1) ∧
    (∀ r, createLVRecord ctx region = .ok r →
      r.exchanges.filter (fun e => e.typ == "production")
        = [productionExch ctx region "low"] ∧
      (productionExch ctx region "low").amount = 1) := by
  refine ⟨?_, ⟨rfl, rfl⟩, ?_⟩
  · intro r h
    unfold createHVRecord at h
    cases hm : marketTechExchanges ctx region (remind_to_ecoinvent_location ctx region)
        (hvTechs ctx) with
    | error err => rw [hm] at h; cases h
    | ok techExchs =>
      rw [hm] at h
      cases h
      refine ⟨?_, rfl⟩
      show List.filter _ (productionExch ctx region "high" :: techExchs) = _
      rw [List.filter_cons_of_pos (by rfl)]
      rw [List.filter_eq_nil_iff.mpr ?_]
      intro e he
      have := marketTechExchanges_typ ctx region _ (hvTechs ctx) techExchs hm e he
      simp [this]
  · intro r h
    unfold createLVRecord at h
    cases hm : lvSolarLoop ctx region (solarTechs ctx) with
    | error err => rw [hm] at h; cases h
    | ok res =>
      rw [hm] at h
      cases h
      refine ⟨?_, rfl⟩
      have hhead : List.filter (fun e => e.typ == "production") (lvFixedHead ctx region)
          = [productionExch ctx region "low"] := rfl
      have htail : List.filter (fun e => e.typ == "production")
          (lvFixedTail ctx region res.1) = [] := rfl
      have hmid : List.filter (fun e => e.typ == "production") res.2 = [] := by
        rw [List.filter_eq_nil_iff]
        intro e he
        have := lvSolarLoop_typ ctx region (solarTechs ctx) res hm e he
        simp [this]
      show List.filter _ (lvFixedHead ctx region ++ res.2 ++ lvFixedTail ctx region res.1) = _
      rw [List.filter_append, List.filter_append, hhead, htail, hmid]
      simp

/-! ## C1: market technosphere inputs sum to the scenario share -/

/-- The filter of C1: technosphere exchanges whose product matches `p`. -/
def productFilter (p : String) (e : Exch) : Bool :=
  e.typ == "technosphere" && e.product == p

/-- The pure value of the technology loop once the resolved locations are
fixed: the concatenated allocated supplier exchanges of all technologies with
non-zero share. -/
def techFlat (ctx : Ctx) (region : String) (locs : List String) : List String → List Exch
  | [] => []
  | t :: ts =>
    (if ctx.share t region != 0 then
      technologyExchanges ctx.population (ctx.share t region)
        (supplierCascade ctx.db locs (ctx.powerplantMap (ctx.marketLabel t)))
    else []) ++ techFlat ctx region locs ts

/-- The running solar-share total of the low-voltage loop. -/
def lvSum (ctx : Ctx) (region : String) : List String → ℚ
  | [] => 0
  | t :: ts =>
    (if ctx.share t region != 0 then ctx.share t region else 0) + lvSum ctx region ts

theorem marketTechExchanges_ok (ctx : Ctx) (region : String) (ecoRegs : PyLocs)
    (locs : List String) (h : iterLocs ecoRegs = .ok locs) :
    ∀ ts : List String, marketTechExchanges ctx region ecoRegs ts
      = .ok (techFlat ctx region locs ts) := by
  intro ts
  induction ts with
  | nil => rfl
  | cons t ts ih =>
    unfold marketTechExchanges techFlat
    by_cases hs : (ctx.share t region != 0) = true
    · rw [if_pos hs, if_pos hs, h, ih]
    · rw [if_neg hs, if_neg hs, ih, List.nil_append]

theorem lvSolarLoop_ok (ctx : Ctx) (region : String) (locs : List String)
    (h : iterLocs (remind_to_ecoinvent_location ctx region) = .ok locs) :
    ∀ ts : List String, lvSolarLoop ctx region ts
      = .ok (lvSum ctx region ts, techFlat ctx region locs ts) := by
  intro ts
  induction ts with
  | nil => rfl
  | cons t ts ih =>
    unfold lvSolarLoop lvSum techFlat
    by_cases hs : (ctx.share t region != 0) = true
    · rw [if_pos hs, if_pos hs, if_pos hs, h, ih]
    · rw [if_neg hs, if_neg hs, if_neg hs, ih, List.nil_append, zero_add]

theorem technologyExchanges_amount_sum (population : List (String × Nat)) (a : ℚ)
    (suppliers : List Rec) (hT : totalPop population suppliers ≠ 0) :
    ((technologyExchanges population a suppliers).map Exch.amount).sum = a := by
  have h1 : (technologyExchanges population a suppliers).map Exch.amount
      = suppliers.map (fun s =>
          a * (popOf population s.location / totalPop population suppliers)) := by
    simp only [technologyExchanges, List.map_map]
    apply List.map_congr_left
    intro s _
    show a * get_pop_weighted_share population s suppliers = _
    rw [get_pop_weighted_share_div]
  rw [h1]
  have h2 : ∀ l : List Rec,
      (l.map (fun s =>
        a * (popOf population s.location / totalPop population suppliers))).sum
      = a * ((l.map (fun s => popOf population s.location)).sum
          / totalPop population suppliers) := by
    intro l
    induction l with
    | nil => simp
    | cons x xs ih =>
      simp only [List.map_cons, List.sum_cons, ih]
      ring
  rw [h2]
  rw [show (suppliers.map (fun s => popOf population s.location)).sum
      = totalPop population suppliers from rfl]
  field_simp

theorem technologyExchanges_filter_all (population : List (String × Nat)) (a : ℚ)
    (suppliers : List Rec) (p : String) (h : ∀ s ∈ suppliers, s.refProduct = p) :
    (technologyExchanges population a suppliers).filter (productFilter p)
      = technologyExchanges population a suppliers := by
  rw [List.filter_eq_self]
  intro e he
  obtain ⟨s, hs, rfl⟩ := List.mem_map.mp (by simpa [technologyExchanges] using he)
  simp [productFilter, h s hs]

theorem technologyExchanges_filter_none (population : List (String × Nat)) (a : ℚ)
    (suppliers : List Rec) (p : String) (h : ∀ s ∈ suppliers, s.refProduct ≠ p) :
    (technologyExchanges population a suppliers).filter (productFilter p) = [] := by
  rw [List.filter_eq_nil_iff]
  intro e he
  obtain ⟨s, hs, rfl⟩ := List.mem_map.mp (by simpa [technologyExchanges] using he)
  simp [productFilter, h s hs]

theorem techFlat_filter_zero (ctx : Ctx) (region : String) (locs : List String) (p : String) :
    ∀ ts : List String,
    (∀ t' ∈ ts, ctx.share t' region ≠ 0 →
      ∀ s ∈ supplierCascade ctx.db locs (ctx.powerplantMap (ctx.marketLabel t')),
        s.refProduct ≠ p) →
    (techFlat ctx region locs ts).filter (productFilter p) = [] := by
  intro ts
  induction ts with
  | nil => intro _; rfl
  | cons u ts ih =>
    intro hall
    unfold techFlat
    rw [List.filter_append]
    rw [ih (fun t' ht' => hall t' (List.mem_cons_of_mem u ht'))]
    by_cases hs : (ctx.share u region != 0) = true
    · rw [if_pos hs]
      rw [technologyExchanges_filter_none _ _ _ p
        (hall u (List.mem_cons_self u ts) (bne_iff_ne.mp hs))]
      rfl
    · rw [if_neg hs]
      rfl

theorem techFlat_filter_sum (ctx : Ctx) (region : String) (locs : List String)
    (t p : String) :
    ∀ ts : List String, ts.Nodup → t ∈ ts →
    ctx.share t region ≠ 0 →
    totalPop ctx.population
      (supplierCascade ctx.db locs (ctx.powerplantMap (ctx.marketLabel t))) ≠ 0 →
    (∀ s ∈ supplierCascade ctx.db locs (ctx.powerplantMap (ctx.marketLabel t)),
      s.refProduct = p) →
    (∀ t' ∈ ts, t' ≠ t → ctx.share t' region ≠ 0 →
      ∀ s ∈ supplierCascade ctx.db locs (ctx.powerplantMap (ctx.marketLabel t')),
        s.refProduct ≠ p) →
    (((techFlat ctx region locs ts).filter (productFilter p)).map Exch.amount).sum
      = ctx.share t region := by
  intro ts
  induction ts with
  | nil => intro _ ht; cases ht
  | cons u ts ih =>
    intro hnd hmem hshare hpop hprod hothers
    unfold techFlat
    rw [List.filter_append, List.map_append, List.sum_append]
    rcases List.mem_cons.mp hmem with heq | htail
    · subst heq
      have hzero : ((techFlat ctx region locs ts).filter (productFilter p)) = [] := by
        apply techFlat_filter_zero
        intro t' ht' hs' s hsin
        have hne : t' ≠ t := fun hteq => (List.nodup_cons.mp hnd).1 (hteq ▸ ht')
        exact hothers t' (List.mem_cons_of_mem t ht') hne hs' s hsin
      rw [hzero]
      rw [if_pos (bne_iff_ne.mpr hshare)]
      rw [technologyExchanges_filter_all _ _ _ p hprod]
      rw [technologyExchanges_amount_sum _ _ _ hpop]
      simp
    · have hne : u ≠ t := fun heq => (List.nodup_cons.mp hnd).1 (heq ▸ htail)
      have hhead : ((if ctx.share u region != 0 then
          technologyExchanges ctx.population (ctx.share u region)
            (supplierCascade ctx.db locs (ctx.powerplantMap (ctx.marketLabel u)))
        else []).filter (productFilter p)) = [] := by
        by_cases hs : (ctx.share u region != 0) = true
        · rw [if_pos hs]
          exact technologyExchanges_filter_none _ _ _ p
            (hothers u (List.mem_cons_self u ts) hne (bne_iff_ne.mp hs))
        · rw [if_neg hs]; rfl
      rw [hhead]
      rw [ih (List.nodup_cons.mp hnd).2 htail hshare hpop hprod
        (fun t' ht' => hothers t' (List.mem_cons_of_mem u ht'))]
      simp

/-- C1: for a technology `t` with non-zero scenario share in region `r` whose
supplier resolution yields at least one candidate (with non-zero total
population, so the allocation is defined), the amounts of the technosphere
exchanges of the synthesized tier market record whose product matches `t`'s
reference product `p` sum to exactly `share t r` — high voltage for a
non-solar `t`, low voltage for a solar `t`. Exact rational equality implies
the claim's 1e-9 tolerance. The product-match hypotheses say that `p`
identifies `t`'s suppliers: every resolved supplier of `t` carries reference
product `p` and no other contributing technology's supplier does (and, for the
low-voltage record, `p` is none of its four fixed technosphere products). -/
theorem c1_market_share_sum (ctx : Ctx) (region t p : String) (locs : List String)
    (hnd : ctx.marketVars.Nodup)
    (ht : t ∈ ctx.marketVars)
    (hshare : ctx.share t region ≠ 0)
    (hlocs : iterLocs (remind_to_ecoinvent_location ctx region) = .ok locs)
    (_hsup : supplierCascade ctx.db locs (ctx.powerplantMap (ctx.marketLabel t)) ≠ [])
    (hpop : totalPop ctx.population
      (supplierCascade ctx.db locs (ctx.powerplantMap (ctx.marketLabel t))) ≠ 0)
    (hprod : ∀ s ∈ supplierCascade ctx.db locs (ctx.powerplantMap (ctx.marketLabel t)),
      s.refProduct = p) :
    (strHas t "Solar" = false →
      (∀ t' ∈ ctx.marketVars, strHas t' "Solar" = false → t' ≠ t →
        ctx.share t' region ≠ 0 →
        ∀ s ∈ supplierCascade ctx.db locs (ctx.powerplantMap (ctx.marketLabel t')),
          s.refProduct ≠ p) →
      ∃ r, createHVRecord ctx region = .ok r ∧
        ((r.exchanges.filter (productFilter p)).map Exch.amount).sum
          = ctx.share t region) ∧
    (strHas t "Solar" = true →
      p ≠ "sulfur hexafluoride, liquid" →
      p ≠ "distribution network, electricity, low voltage" →
      p ≠ "electricity, medium voltage" →
      p ≠ "electricity, low voltage" →
      (∀ t' ∈ ctx.marketVars, strHas t' "Solar" = true → t' ≠ t →
        ctx.share t' region ≠ 0 →
        ∀ s ∈ supplierCascade ctx.db locs (ctx.powerplantMap (ctx.marketLabel t')),
          s.refProduct ≠ p) →
      ∃ r, createLVRecord ctx region = .ok r ∧
        ((r.exchanges.filter (productFilter p)).map Exch.amount).sum
          = ctx.share t region) := by
  constructor
  · intro hns hothers
    refine ⟨_, by rw [createHVRecord,
      marketTechExchanges_ok ctx region _ locs hlocs (hvTechs ctx)], ?_⟩
    show ((List.filter (productFilter p)
      (productionExch ctx region "high" :: techFlat ctx region locs (hvTechs ctx))).map
        Exch.amount).sum = ctx.share t region
    rw [List.filter_cons_of_neg (by simp [productFilter, productionExch])]
    apply techFlat_filter_sum ctx region locs t p (hvTechs ctx)
    · exact List.Nodup.filter _ hnd
    · exact List.mem_filter.mpr ⟨ht, by rw [hns]; rfl⟩
    · exact hshare
    · exact hpop
    · exact hprod
    · intro t' ht' hne hs'
      have hm := List.mem_filter.mp ht'
      exact hothers t' hm.1 (by simpa using hm.2) hne hs'
  · intro hsol hp1 hp2 hp3 hp4 hothers
    refine ⟨_, by rw [createLVRecord, lvSolarLoop_ok ctx region locs hlocs (solarTechs ctx)],
      ?_⟩
    show ((List.filter (productFilter p)
      (lvFixedHead ctx region ++ techFlat ctx region locs (solarTechs ctx)
        ++ lvFixedTail ctx region (lvSum ctx region (solarTechs ctx)))).map
          Exch.amount).sum = ctx.share t region
    have hC1 : (("sulfur hexafluoride, liquid" : String) == p) = false :=
      beq_eq_false_iff_ne.mpr (Ne.symm hp1)
    have hC2 : (("distribution network, electricity, low voltage" : String) == p) = false :=
      beq_eq_false_iff_ne.mpr (Ne.symm hp2)
    have hC3 : (("electricity, medium voltage" : String) == p) = false :=
      beq_eq_false_iff_ne.mpr (Ne.symm hp3)
    have hC4 : (("electricity, low voltage" : String) == p) = false :=
      beq_eq_false_iff_ne.mpr (Ne.symm hp4)
    have hhead : (lvFixedHead ctx region).filter (productFilter p) = [] := by
      simp [lvFixedHead, productionExch, productFilter, hC1, hC2]
    have htail : (lvFixedTail ctx region (lvSum ctx region (solarTechs ctx))).filter
        (productFilter p) = [] := by
      simp [lvFixedTail, productFilter, hC3, hC4]
    rw [List.filter_append, List.filter_append, hhead, htail, List.nil_append,
      List.append_nil]
    apply techFlat_filter_sum ctx region locs t p (solarTechs ctx)
    · exact List.Nodup.filter _ hnd
    · exact List.mem_filter.mpr ⟨ht, hsol⟩
    · exact hshare
    · exact hpop
    · exact hprod
    · intro t' ht' hne hs'
      have hm := List.mem_filter.mp ht'
      exact hothers t' hm.1 hm.2 hne hs'

/-! ## A concrete scenario world, used by the witnesses -/

/-- Coal-fired supplier in location `AA`. -/
def recCoal1 : Rec :=
  { name := "coal plant", location := "AA", refProduct := "electricity, coal",
    unit := "kilowatt hour", database := "ecoinvent 3.5" }

/-- Coal-fired supplier in location `AB`. -/
def recCoal2 : Rec :=
  { name := "coal plant 2", location := "AB", refProduct := "electricity, coal",
    unit := "kilowatt hour", database := "ecoinvent 3.5" }

/-- Solar supplier in location `AA`. -/
def recSolar : Rec :=
  { name := "solar plant", location := "AA", refProduct := "electricity, solar",
    unit := "kilowatt hour", database := "ecoinvent 3.5" }

/-- A small concrete `Electricity` state: one scenario region `REG` containing
the inventory locations `AA` and `AB`, one non-solar and one solar technology
with non-zero shares, and three candidate suppliers. -/
def Wctx : Ctx :=
  { db := [recCoal1, recCoal2, recSolar]
    population := [("AA", 7000000), ("AB", 3000000)]
    regions := ["REG"]
    marketVars := ["Coal", "Solar PV"]
    share := fun t r =>
      if t == "Coal" && r == "REG" then 3
      else if t == "Solar PV" && r == "REG" then 2 else 0
    marketLabel := fun t => t
    powerplantMap := fun t =>
      if t == "Coal" then ["coal plant", "coal plant 2"]
      else if t == "Solar PV" then ["solar plant"] else []
    geoIntersects := fun r =>
      if r == "REG" then
        some [GeoItem.str "AA", GeoItem.str "AB", GeoItem.tup "REMIND" "REG"]
      else none
    geoWithin := fun _ => none
    scenario := "SSP2"
    year := 2030 }

theorem Wctx_hv_suppliers :
    supplierCascade Wctx.db ["AA", "AB"] (Wctx.powerplantMap (Wctx.marketLabel "Coal"))
      = [recCoal1, recCoal2] := rfl

theorem Wctx_lv_suppliers :
    supplierCascade Wctx.db ["AA", "AB"] (Wctx.powerplantMap (Wctx.marketLabel "Solar PV"))
      = [recSolar] := rfl

theorem c1_market_share_sum_witness :
    (∃ r, createHVRecord Wctx "REG" = .ok r ∧
      ((r.exchanges.filter (productFilter "electricity, coal")).map Exch.amount).sum
        = Wctx.share "Coal" "REG") ∧
    (∃ r, createLVRecord Wctx "REG" = .ok r ∧
      ((r.exchanges.filter (productFilter "electricity, solar")).map Exch.amount).sum
        = Wctx.share "Solar PV" "REG") := by
  have hshareC : Wctx.share "Coal" "REG" = 3 := rfl
  have hshareS : Wctx.share "Solar PV" "REG" = 2 := rfl
  have hpopC : totalPop Wctx.population
      (supplierCascade Wctx.db ["AA", "AB"] (Wctx.powerplantMap (Wctx.marketLabel "Coal")))
      ≠ 0 := by
    rw [Wctx_hv_suppliers]
    rw [show totalPop Wctx.population [recCoal1, recCoal2]
        = 7000000 + (3000000 + 0) from rfl]
    norm_num
  have hpopS : totalPop Wctx.population
      (supplierCascade Wctx.db ["AA", "AB"]
        (Wctx.powerplantMap (Wctx.marketLabel "Solar PV"))) ≠ 0 := by
    rw [Wctx_lv_suppliers]
    rw [show totalPop Wctx.population [recSolar] = 7000000 + 0 from rfl]
    norm_num
  constructor
  · exact (c1_market_share_sum Wctx "REG" "Coal" "electricity, coal" ["AA", "AB"]
      (by decide) (by decide) (by rw [hshareC]; norm_num) rfl
      (by rw [Wctx_hv_suppliers]; simp) hpopC (by decide)).1 rfl
      (by intro t' ht' hns2 hne
          fin_cases ht'
          · exact absurd rfl hne
          · exact absurd hns2 (by decide))
  · exact (c1_market_share_sum Wctx "REG" "Solar PV" "electricity, solar" ["AA", "AB"]
      (by decide) (by decide) (by rw [hshareS]; norm_num) rfl
      (by rw [Wctx_lv_suppliers]; simp) hpopS (by decide)).2 rfl
      (by decide) (by decide) (by decide) (by decide)
      (by intro t' ht' hsol2 hne
          fin_cases ht'
          · exact absurd hsol2 (by decide)
          · exact absurd rfl hne)

/-- The high-voltage record the composer produces for `REG` in the witness
world. -/
def hvRecW : Rec :=
  { name := marketName Wctx "high"
    location := "REG"
    refProduct := "electricity, high voltage"
    unit := "kilowatt hour"
    database := dbTag Wctx
    comment := "Dataset produced from REMIND scenario output results"
    exchanges := productionExch Wctx "REG" "high"
      :: techFlat Wctx "REG" ["AA", "AB"] (hvTechs Wctx) }

/-- The low-voltage record the composer produces for `REG` in the witness
world. -/
def lvRecW : Rec :=
  { name := marketName Wctx "low"
    location := "REG"
    refProduct := "electricity, low voltage"
    unit := "kilowatt hour"
    database := dbTag Wctx
    comment := "Dataset produced from REMIND scenario output results"
    exchanges := lvFixedHead Wctx "REG"
      ++ techFlat Wctx "REG" ["AA", "AB"] (solarTechs Wctx)
      ++ lvFixedTail Wctx "REG" (lvSum Wctx "REG" (solarTechs Wctx)) }

theorem createHVRecord_Wctx : createHVRecord Wctx "REG" = .ok hvRecW := by
  rw [createHVRecord,
    marketTechExchanges_ok Wctx "REG" (remind_to_ecoinvent_location Wctx "REG")
      ["AA", "AB"] rfl (hvTechs Wctx)]
  rfl

theorem createLVRecord_Wctx : createLVRecord Wctx "REG" = .ok lvRecW := by
  rw [createLVRecord, lvSolarLoop_ok Wctx "REG" ["AA", "AB"] rfl (solarTechs Wctx)]
  rfl

theorem c8_one_production_exchange_witness :
    (hvRecW.exchanges.filter (fun e => e.typ == "production")
        = [productionExch Wctx "REG" "high"] ∧
      (productionExch Wctx "REG" "high").amount = 1) ∧
    ((createMVRecord Wctx "REG").exchanges.filter (fun e => e.typ == "production")
        = [productionExch Wctx "REG" "medium"] ∧
      (productionExch Wctx "REG" "medium").amount = 1) ∧
    (lvRecW.exchanges.filter (fun e => e.typ == "production")
        = [productionExch Wctx "REG" "low"] ∧
      (productionExch Wctx "REG" "low").amount = 1) :=
  ⟨(c8_one_production_exchange Wctx "REG").1 hvRecW createHVRecord_Wctx,
   (c8_one_production_exchange Wctx "REG").2.1,
   (c8_one_production_exchange Wctx "REG").2.2 lvRecW createLVRecord_Wctx⟩

/-! ## C5: re-running the Relinking Engine -/

theorem relinkExchange_error (ctx : Ctx) (e : Exch)
    (heprod : e.product = "electricity, high voltage")
    (hetyp : e.typ ≠ "production")
    (heunit : e.unit = "kilowatt hour")
    (hloc1 : e.location ≠ "GLO") (hloc2 : e.location ≠ "RoW")
    (hloc3 : e.location ≠ "IAI Area, Russia & RER w/o EU27 & EFTA")
    (hgeo : ctx.geoWithin e.location = none) :
    relinkExchange ctx e = .error .keyError := by
  have hmatch : relinkMatches e = true := by
    unfold relinkMatches
    rw [heunit]
    rfl
  have hhead : e2rHead ctx e.location = .error .keyError := by
    unfold e2rHead ecoinvent_to_remind_location
    rw [beq_eq_false_iff_ne.mpr hloc1, beq_eq_false_iff_ne.mpr hloc2,
      beq_eq_false_iff_ne.mpr hloc3, hgeo]
    rfl
  unfold relinkExchange
  rw [hmatch]
  rw [if_pos (by rw [heunit, bne_iff_ne.mpr hetyp]; rfl)]
  unfold relinkStep
  rw [if_pos (by rw [heprod]; rfl), hhead]

theorem relinkExchanges_error (ctx : Ctx) (e : Exch) (err : PyErr)
    (herr : relinkExchange ctx e = .error err) :
    ∀ l : List Exch, e ∈ l → ∃ err', relinkExchanges ctx l = .error err' := by
  intro l
  induction l with
  | nil => intro h; cases h
  | cons x xs ih =>
    intro hmem
    unfold relinkExchanges
    rcases List.mem_cons.mp hmem with heq | htail
    · subst heq
      rw [herr]
      exact ⟨err, rfl⟩
    · cases hx : relinkExchange ctx x with
      | error ex => exact ⟨ex, rfl⟩
      | ok x1 =>
        obtain ⟨err', htl⟩ := ih htail
        rw [htl]
        exact ⟨err', rfl⟩

theorem relinkDb_error (ctx : Ctx) (r : Rec) (err : PyErr)
    (herr : relinkRecord ctx r = .error err) :
    ∀ db : List Rec, r ∈ db → ∃ err', relinkDb ctx db = .error err' := by
  intro db
  induction db with
  | nil => intro h; cases h
  | cons x xs ih =>
    intro hmem
    unfold relinkDb
    rcases List.mem_cons.mp hmem with heq | htail
    · subst heq
      rw [herr]
      exact ⟨err, rfl⟩
    · cases hx : relinkRecord ctx x with
      | error ex => exact ⟨ex, rfl⟩
      | ok x1 =>
        obtain ⟨err', htl⟩ := ih htail
        rw [htl]
        exact ⟨err', rfl⟩

/-- C5 (amended): re-running the Relinking Engine on an already-relinked
database is not a no-op. A relinked electricity exchange — one already
pointing at a tier market group, with a scenario-region location — still
matches the relink patterns (its unit is still `kilowatt hour` and its product
still names a voltage), so the second run re-derives its location by reverse
mapping the scenario-region code; when that code is unknown to the geo
service (as REMIND region codes are), the run aborts with a lookup error
instead of leaving the database unchanged. -/
theorem c5_second_relink_errors (ctx : Ctx) (db : List Rec) (r : Rec) (e : Exch)
    (hr : r ∈ db)
    (hname : strHas r.name "market group for electricity" = false)
    (he : e ∈ r.exchanges)
    (heprod : e.product = "electricity, high voltage")
    (hetyp : e.typ ≠ "production")
    (heunit : e.unit = "kilowatt hour")
    (hloc1 : e.location ≠ "GLO") (hloc2 : e.location ≠ "RoW")
    (hloc3 : e.location ≠ "IAI Area, Russia & RER w/o EU27 & EFTA")
    (hgeo : ctx.geoWithin e.location = none) :
    ∃ err, relinkDb ctx db = .error err := by
  have hexc := relinkExchange_error ctx e heprod hetyp heunit hloc1 hloc2 hloc3 hgeo
  obtain ⟨err1, hexchs⟩ := relinkExchanges_error ctx e .keyError hexc r.exchanges he
  have hrec : relinkRecord ctx r = .error err1 := by
    unfold relinkRecord
    rw [hname]
    simp only [Bool.false_eq_true, if_false]
    rw [hexchs]
  exact relinkDb_error ctx r err1 hrec db hr

/-- Relink world for C5: the geo service knows the inventory location `DE`
(inside scenario region `EUR`) but, as in the real geomatcher, does not know
the scenario-region code `EUR` itself. -/
def ctxC5 : Ctx :=
  { geoWithin := fun l => if l == "DE" then some [GeoItem.tup "REMIND" "EUR"] else none
    scenario := "SSP2"
    year := 2030 }

/-- A pre-relink electricity input exchange of a consuming activity. -/
def excPre : Exch :=
  { uncertaintyType := 0, locv := 1, amount := 2, typ := "technosphere",
    product := "electricity, high voltage",
    name := "market for electricity, high voltage",
    unit := "kilowatt hour", location := "DE" }

/-- The same exchange after one relink pass: it references the synthesized
high-voltage tier market group and carries the scenario-region code. -/
def excPost : Exch :=
  { uncertaintyType := 0, locv := 1, amount := 2, typ := "technosphere",
    product := "electricity, high voltage",
    name := "market group for electricity, high voltage, SSP2, 2030",
    unit := "kilowatt hour", location := "EUR" }

/-- An electricity-consuming activity before relinking. -/
def consumerPre : Rec :=
  { name := "aluminium production", location := "DE", unit := "kilogram",
    exchanges := [excPre] }

/-- The same activity after one relink pass. -/
def consumerPost : Rec :=
  { name := "aluminium production", location := "DE", unit := "kilogram",
    exchanges := [excPost] }

/-- C5 counterexample: one relink run rewrites the consumer database
`[consumerPre]` to `[consumerPost]`, the fully relinked form; running the
Relinking Engine a second time on that already-relinked database is not a
no-op — it raises a `KeyError` while reverse-mapping the scenario-region
location `EUR` of the already-relinked exchange. -/
theorem c5_counterexample :
    relinkDb ctxC5 [consumerPre] = .ok [consumerPost] ∧
    relinkDb ctxC5 [consumerPost] = .error .keyError ∧
    relinkDb ctxC5 [consumerPost] ≠ .ok [consumerPost] := by
  refine ⟨rfl, rfl, ?_⟩
  rw [show relinkDb ctxC5 [consumerPost] = .error .keyError from rfl]
  simp

theorem c5_second_relink_errors_witness :
    ∃ err, relinkDb ctxC5 [consumerPost] = .error err :=
  c5_second_relink_errors ctxC5 [consumerPost] consumerPost excPost
    (List.mem_cons_self _ _) rfl (List.mem_cons_self _ _) rfl
    (by simp [excPost]) rfl (by simp [excPost]) (by simp [excPost])
    (by simp [excPost]) rfl

/-! ## C9: the efficiency computation -/

/-- The summed lower heating values of the fuels whose label occurs in the
exchange's name: when exactly one fuel matches, this is that fuel's LHV. -/
def matchedLhv (fuelsLhv : List (String × ℚ)) (e : Exch) : ℚ :=
  ((fuelsLhv.filter (fun kv => strHas e.name kv.1)).map (fun kv => kv.2)).sum

theorem sum_map_add (f g : (String × ℚ) → ℚ) (l : List (String × ℚ)) :
    (l.map (fun kv => f kv + g kv)).sum = (l.map f).sum + (l.map g).sum := by
  induction l with
  | nil => simp
  | cons kv rest ih =>
    simp only [List.map_cons, List.sum_cons, ih]
    ring

theorem sum_if_filter (P : String × ℚ → Bool) (a : ℚ) (fuelsLhv : List (String × ℚ)) :
    (fuelsLhv.map (fun kv => if P kv then kv.2 / (36/10) * a else 0)).sum
      = ((fuelsLhv.filter P).map (fun kv => kv.2)).sum / (36/10) * a := by
  induction fuelsLhv with
  | nil => simp
  | cons kv rest ih =>
    by_cases h : P kv = true
    · rw [List.map_cons, List.sum_cons, if_pos h, ih, List.filter_cons_of_pos h,
        List.map_cons, List.sum_cons]
      ring
    · rw [List.map_cons, List.sum_cons, if_neg h, ih, List.filter_cons_of_neg h]
      ring

theorem lhvEnergyInput_cons (fuelsLhv : List (String × ℚ)) (e : Exch) (es : List Exch) :
    lhvEnergyInput fuelsLhv (e :: es)
      = matchedLhv fuelsLhv e / (36/10) * e.amount + lhvEnergyInput fuelsLhv es := by
  unfold lhvEnergyInput matchedLhv
  have hpt : ∀ kv ∈ fuelsLhv,
      (((e :: es).filter (fun x => strHas x.name kv.1)).map
        (fun x => kv.2 / (36/10) * x.amount)).sum
      = (if strHas e.name kv.1 then kv.2 / (36/10) * e.amount else 0)
        + ((es.filter (fun x => strHas x.name kv.1)).map
            (fun x => kv.2 / (36/10) * x.amount)).sum := by
    intro kv _
    rw [List.filter_cons]
    by_cases h : strHas e.name kv.1 = true
    · rw [if_pos h, if_pos h, List.map_cons, List.sum_cons]
    · rw [if_neg h, if_neg h, zero_add]
  rw [List.map_congr_left hpt, sum_map_add, sum_if_filter]

theorem lhvEnergyInput_eq (fuelsLhv : List (String × ℚ)) (es : List Exch) :
    lhvEnergyInput fuelsLhv es
      = (es.map (fun e => matchedLhv fuelsLhv e / (36/10) * e.amount)).sum := by
  induction es with
  | nil => simp [lhvEnergyInput]
  | cons e es ih => rw [lhvEnergyInput_cons, ih, List.map_cons, List.sum_cons]

theorem find?_of_mem_map_fst (params : List (String × ℚ)) (k : String)
    (h : k ∈ params.map (fun kv => kv.1)) :
    ∃ kv, params.find? (fun kv => kv.1 == k) = some kv ∧ kv ∈ params ∧ kv.1 = k := by
  induction params with
  | nil => cases h
  | cons kv0 rest ih =>
    rw [List.map_cons] at h
    by_cases heq : kv0.1 = k
    · exact ⟨kv0, by rw [List.find?_cons_of_pos _ (by simp [heq])],
        List.mem_cons_self _ _, heq⟩
    · have h' : k ∈ rest.map (fun kv => kv.1) := by
        rcases List.mem_cons.mp h with hc | hc
        · exact absurd hc.symm heq
        · exact hc
      obtain ⟨kv, hf, hm, hk⟩ := ih h'
      exact ⟨kv, by rw [List.find?_cons_of_neg _ (by simp [heq])]; exact hf,
        List.mem_cons_of_mem kv0 hm, hk⟩

/-- C9: `find_ecoinvent_fuel_efficiency` — (a) for an ecoinvent record with an
explicit parameter whose name contains `efficiency` but not `thermal`, that
parameter is returned and the record is unchanged; (b) for an ecoinvent record
with no such parameter, the efficiency is derived as the reference-product
output amount divided by the total energy input, the sum over matching fuel
exchanges of (lower heating value of the matching fuel ÷ 3.6) × amount (when
each matching exchange names exactly one fuel of the table, `matchedLhv` is
that fuel's LHV); (c) for a record of any other database, the efficiency is
always derived, as the reference-product amount over the sum of amount ÷ 3.6
with no heating-value lookup. -/
theorem c9_fuel_efficiency (ctx : Ctx) (ds : Rec) (fuelFilter : Exch → Bool) :
    (strHas ds.database "ecoinvent" = true →
      (efficiencyKeys ds ≠ [] →
        ∃ kv ∈ ds.parameters,
          (strHas kv.1 "efficiency" = true ∧ strHas kv.1 "thermal" = false) ∧
          find_ecoinvent_fuel_efficiency ctx ds fuelFilter = .ok (kv.2, ds)) ∧
      (efficiencyKeys ds = [] →
        ∀ refExch, referenceProduct ds = some refExch →
        (∀ e ∈ technosphereExchs ds fuelFilter,
          (ctx.fuelsLhv.filter (fun kv => strHas e.name kv.1)).length = 1) →
        ∃ ds', find_ecoinvent_fuel_efficiency ctx ds fuelFilter
          = .ok (refExch.amount /
              ((technosphereExchs ds fuelFilter).map
                (fun e => matchedLhv ctx.fuelsLhv e / (36/10) * e.amount)).sum, ds'))) ∧
    (strHas ds.database "ecoinvent" = false →
      ∀ refExch, referenceProduct ds = some refExch →
      ∃ ds', find_ecoinvent_fuel_efficiency ctx ds fuelFilter
        = .ok (refExch.amount /
            ((technosphereExchs ds fuelFilter).map (fun e => e.amount / (36/10))).sum,
          ds')) := by
  constructor
  · intro hdb
    constructor
    · intro hkeys
      cases hk : efficiencyKeys ds with
      | nil => exact absurd hk hkeys
      | cons k ks =>
        have hkmem : k ∈ efficiencyKeys ds := by rw [hk]; exact List.mem_cons_self k ks
        have hkf := List.mem_filter.mp hkmem
        obtain ⟨hmap, hpred⟩ := hkf
        obtain ⟨kv, hfind, hkvmem, hkveq⟩ := find?_of_mem_map_fst ds.parameters k hmap
        obtain ⟨hpe, hpt⟩ : strHas k "efficiency" = true ∧ strHas k "thermal" = false := by
          simpa using hpred
        refine ⟨kv, hkvmem, ⟨?_, ?_⟩, ?_⟩
        · rw [hkveq]; exact hpe
        · rw [hkveq]; exact hpt
        · unfold find_ecoinvent_fuel_efficiency
          rw [hdb]
          simp only [if_true]
          rw [hk]
          show Except.ok (paramLookup ds.parameters k, ds) = _
          rw [show paramLookup ds.parameters k = kv.2 from by
            unfold paramLookup; rw [hfind]]
    · intro hkeys refExch href _huniq
      refine ⟨{ ds with parameters := setParam ds.parameters "efficiency" (refExch.amount / lhvEnergyInput ctx.fuelsLhv (technosphereExchs ds fuelFilter)) }, ?_⟩
      unfold find_ecoinvent_fuel_efficiency
      rw [hdb]
      simp only [if_true]
      rw [hkeys, href]
      rw [show lhvEnergyInput ctx.fuelsLhv (technosphereExchs ds fuelFilter)
        = ((technosphereExchs ds fuelFilter).map
            (fun e => matchedLhv ctx.fuelsLhv e / (36/10) * e.amount)).sum
        from lhvEnergyInput_eq ctx.fuelsLhv (technosphereExchs ds fuelFilter)]
  · intro hdb refExch href
    refine ⟨{ ds with parameters := [Prod.mk "efficiency" (refExch.amount / ((technosphereExchs ds fuelFilter).map (fun e => e.amount / (36/10))).sum)] }, ?_⟩
    unfold find_ecoinvent_fuel_efficiency
    rw [hdb]
    simp only [Bool.false_eq_true, if_false]
    rw [href]

/-- Lookup-table world for the C9 witness: one fuel with LHV 27. -/
def ctxC9 : Ctx := { fuelsLhv := [("hard coal", 27)] }

/-- An ecoinvent record carrying an explicit efficiency parameter. -/
def dsParamW : Rec :=
  { name := "electricity production, hard coal", database := "ecoinvent 3.5",
    parameters := [("efficiency_electrical", 2)] }

/-- Reference-product output exchange of the derivation witnesses. -/
def prodExchW : Exch :=
  { typ := "production", amount := 1, product := "electricity, high voltage",
    name := "electricity production, hard coal", unit := "kilowatt hour" }

/-- Fuel input exchange of the derivation witnesses. -/
def fuelExchW : Exch :=
  { typ := "technosphere", amount := 2, name := "market for hard coal",
    unit := "kilogram" }

/-- An ecoinvent record without an explicit efficiency parameter. -/
def dsDeriveW : Rec :=
  { name := "electricity production, hard coal", database := "ecoinvent 3.5",
    parameters := [], exchanges := [prodExchW, fuelExchW] }

/-- A record from another data source (no native efficiency parameters). -/
def dsCarmaW : Rec :=
  { name := "electricity production, hard coal", database := "CarmaCCSdb",
    parameters := [], exchanges := [prodExchW, fuelExchW] }

/-- The fuel-exchange filter of the C9 witness. -/
def fuelFilterW (e : Exch) : Bool := e.unit == "kilogram"

theorem c9_fuel_efficiency_witness :
    (∃ kv ∈ dsParamW.parameters,
      (strHas kv.1 "efficiency" = true ∧ strHas kv.1 "thermal" = false) ∧
      find_ecoinvent_fuel_efficiency ctxC9 dsParamW fuelFilterW = .ok (kv.2, dsParamW)) ∧
    (∃ ds', find_ecoinvent_fuel_efficiency ctxC9 dsDeriveW fuelFilterW
      = .ok (prodExchW.amount /
          ((technosphereExchs dsDeriveW fuelFilterW).map
            (fun e => matchedLhv ctxC9.fuelsLhv e / (36/10) * e.amount)).sum, ds')) ∧
    (∃ ds', find_ecoinvent_fuel_efficiency ctxC9 dsCarmaW fuelFilterW
      = .ok (prodExchW.amount /
          ((technosphereExchs dsCarmaW fuelFilterW).map
            (fun e => e.amount / (36/10))).sum, ds')) := by
  refine ⟨((c9_fuel_efficiency ctxC9 dsParamW fuelFilterW).1 (by decide)).1 (by decide),
    ((c9_fuel_efficiency ctxC9 dsDeriveW fuelFilterW).1 (by decide)).2 (by decide)
      prodExchW rfl (by decide),
    (c9_fuel_efficiency ctxC9 dsCarmaW fuelFilterW).2 (by decide) prodExchW rfl⟩

end RmndLca
